import Mathlib

/-!
Shallow embedding of the DuckDB wasm shell session controller
(packages/duckdb-wasm-shell/crate/src/shell.rs).

The shell state is modelled explicitly and every handler becomes a state
transformer.  Asynchronous handlers are split into their synchronous capture
part and their resumption part; the thread-local singleton accesses
(`Shell::with` / `Shell::with_mut`) become explicit state passing.  External
collaborators (terminal, prompt buffer internals, engine binding, platform
probe, result formatter) are modelled by behaviour records or parameters,
following the collaborator contracts of the design document.  A Rust
`unwrap()` on a failed result is modelled by the `Res.panicked` outcome.
-/

/-! ### String helpers mirroring the Rust `str` methods used by shell.rs -/

/-- Rust `str::trim_start`. -/
def strTrimStart (s : String) : String :=
  ⟨s.data.dropWhile Char.isWhitespace⟩

/-- Rust `str::trim_end`. -/
def strTrimEnd (s : String) : String :=
  ⟨(s.data.reverse.dropWhile Char.isWhitespace).reverse⟩

/-- Rust `str::trim`. -/
def strTrim (s : String) : String :=
  strTrimEnd (strTrimStart s)

/-- Rust `s.trim_start().starts_with(".")` as used for command detection. -/
def strStartsWithDot (s : String) : Bool :=
  match (strTrimStart s).data with
  | '.' :: _ => true
  | _ => false

/-- Rust `str::ends_with` with a string pattern. -/
def strEndsWith (s pat : String) : Bool :=
  pat.data.isSuffixOf s.data

/-- Rust `&args[..args.find(" ").unwrap_or(args.len())]` and the remainder
`&args[subcmd.len()..]`: split at the first space (the remainder keeps the
space, the callers trim it). -/
def splitAtSpace (s : String) : String × String :=
  (⟨s.data.takeWhile (fun c => !(c == ' '))⟩, ⟨s.data.dropWhile (fun c => !(c == ' '))⟩)

/-- Rust `msg.replace("\n", "\r\n")` (single-character pattern, so a
per-character replacement). -/
def replaceNewlines (s : String) : String :=
  ⟨s.data.foldr (fun c acc => if c = '\n' then '\r' :: '\n' :: acc else c :: acc) []⟩

/-- Rust format padding `{:<24}`: left align, pad with spaces. -/
def padRight (s : String) (n : Nat) : String :=
  s ++ ⟨List.replicate (n - s.data.length) ' '⟩

/-! ### VT100 constants

Modelled from the spec: the crate vt100 module is outside the given source
tree; the line-ending convention is fixed by the design document (embedded
line breaks are translated to "\r\n"), the remaining constants are standard
ANSI escape sequences whose exact values no claim depends on. -/

/-- Modelled from the spec: terminal line ending convention. -/
def vt100CRLF : String := "\r\n"

/-- Modelled from the spec: clear-screen escape sequence. -/
def vt100CLEAR_SCREEN : String := "\x1b[2J"

/-- Modelled from the spec: cursor-home escape sequence. -/
def vt100CURSOR_HOME : String := "\x1b[H"

/-- Modelled from the spec: bold mode escape sequence. -/
def vt100MODE_BOLD : String := "\x1b[1m"

/-- Modelled from the spec: reset-modes escape sequence. -/
def vt100MODES_OFF : String := "\x1b[0m"

/-- Modelled from the spec: foreground black. -/
def vt100FG_BLACK : String := "\x1b[30m"

/-- Modelled from the spec: foreground bright yellow. -/
def vt100FG_BRIGHT_YELLOW : String := "\x1b[93m"

/-- Modelled from the spec: background black. -/
def vt100BG_BLACK : String := "\x1b[40m"

/-- Modelled from the spec: background bright yellow. -/
def vt100BG_BRIGHT_YELLOW : String := "\x1b[103m"

/-! ### Data model -/

/-- Shell settings (shell.rs `ShellSettings`). -/
structure ShellSettings where
  timer : Bool
  webgl : Bool
  deriving DecidableEq

/-- Normalized keys routed by `Shell::on_key`; the conversion from the raw
browser event lives in the external key_event module, so printable keys are
kept abstract as `Other`. -/
inductive Key where
  | Enter
  | Backspace
  | ArrowDown
  | ArrowLeft
  | ArrowRight
  | ArrowUp
  | Other (c : Char)
  deriving DecidableEq

/-- A key event with the browser type discriminator (only "keydown" is acted
on). -/
structure KeyEvent where
  etype : String
  key : Key
  deriving DecidableEq

/-- Modelled from the spec: the line-edit buffer contract of the design
document — `collect` returns the text, `startNew` begins a fresh prompt line,
`highlight` stores token markup, `flush` renders to the terminal.  The
internal editing algorithm is out of scope; `consume` is passed as a
parameter wherever it is needed. -/
structure PromptBuffer where
  text : String
  highlighted : Option (List Nat)
  deriving DecidableEq

/-- Modelled from the spec: a fresh empty buffer. -/
def PromptBuffer.default : PromptBuffer := ⟨"", none⟩

/-- Modelled from the spec: `collect() -> text`. -/
def PromptBuffer.collect (b : PromptBuffer) : String := b.text

/-- Modelled from the spec: `startNew()` begins a fresh prompt line. -/
def PromptBuffer.start_new (_ : PromptBuffer) : PromptBuffer := PromptBuffer.default

/-- Modelled from the spec: `highlight(tokens)` stores the highlight markup. -/
def PromptBuffer.highlight_sql (b : PromptBuffer) (tokens : List Nat) : PromptBuffer :=
  { b with highlighted := some tokens }

/-- Observable terminal effects: a raw `terminal.write` or a buffer flush. -/
inductive TermOp where
  | write (text : String)
  | flushBuffer (buffer : PromptBuffer)
  deriving DecidableEq

/-- The stats object returned by `export_file_statistics`. -/
structure FileStatistics where
  print_read_stats : Nat → String

/-- Behaviour of the engine binding (`AsyncDuckDB`): each async call is
modelled by the result it resolves to; the error payloads the shell discards
or unwraps are `Unit`. -/
structure AsyncDuckDB where
  tokenize : String → Except Unit (List Nat)
  get_version : Except Unit String
  get_feature_flags : Except Unit Nat
  enable_file_statistics : String → Bool → Except Unit Unit
  export_file_statistics : String → Except Unit FileStatistics

/-- Arrow record batches, abstract: the shell only hands them to the external
formatter. -/
abbrev RecordBatches := List Nat

/-- Behaviour of a connection (`AsyncDuckDBConnection`): `run_query` resolves
to batches or fails with a human readable message. -/
structure AsyncDuckDBConnection where
  run_query : String → Except String RecordBatches

/-- Platform capability probe result (external platform module). -/
structure PlatformFeatures where
  wasm_exceptions : Bool
  wasm_simd : Bool
  wasm_bulk_memory : Bool
  wasm_threads : Bool
  cross_origin_isolated : Bool
  deriving DecidableEq

/-- The session singleton state (shell.rs `Shell`).  The terminal is
represented by the list of effects written to it; `input_clock` is the u64
counter of the source, represented as a Nat whose increments wrap modulo
2 ^ 64 (see `on_key`). -/
structure Shell where
  settings : ShellSettings
  terminal : List TermOp
  terminal_width : Nat
  runtime : Option Unit
  input : PromptBuffer
  input_enabled : Bool
  input_clock : Nat
  history : List String
  db : Option AsyncDuckDB
  db_conn : Option AsyncDuckDBConnection

/-- shell.rs `HISTORY_LENGTH`. -/
def HISTORY_LENGTH : Nat := 1000

/-- shell.rs `Shell::default()`. -/
def Shell.default : Shell where
  settings := ⟨false, false⟩
  terminal := []
  terminal_width := 100
  runtime := none
  input := PromptBuffer.default
  input_enabled := false
  input_clock := 0
  history := []
  db := none
  db_conn := none

/-- Outcome of a fallible handler: a Rust `unwrap()` of a failed result is a
panic. -/
inductive Res (α : Type) where
  | ok (value : α)
  | panicked

/-- Extract the shell from an outcome, with a fallback for the panicked case. -/
def Res.getD {α : Type} (r : Res α) (d : α) : α :=
  match r with
  | .ok v => v
  | .panicked => d

/-! ### Shell primitives -/

/-- shell.rs `Shell::write`. -/
def Shell.write (s : Shell) (text : String) : Shell :=
  { s with terminal := s.terminal ++ [TermOp.write text] }

/-- shell.rs `Shell::writeln`: write with appended CRLF. -/
def Shell.writeln (s : Shell) (text : String) : Shell :=
  s.write (text ++ vt100CRLF)

/-- shell.rs `Shell::prompt`: start a new buffer line, flush it, re-enable
input. -/
def Shell.prompt (s : Shell) : Shell :=
  let inp := s.input.start_new
  { s with
    input := inp
    terminal := s.terminal ++ [TermOp.flushBuffer inp]
    input_enabled := true }

/-- shell.rs `Shell::clear`: clear screen, cursor home, redraw prompt. -/
def Shell.clear (s : Shell) : Shell :=
  (s.write (vt100CLEAR_SCREEN ++ vt100CURSOR_HOME)).prompt

/-- shell.rs `Shell::block_input`. -/
def Shell.block_input (s : Shell) : Shell :=
  { s with input_enabled := false }

/-- shell.rs `Shell::flush`: render the current input buffer to the
terminal. -/
def Shell.flush (s : Shell) : Shell :=
  { s with terminal := s.terminal ++ [TermOp.flushBuffer s.input] }

/-! ### History ring and the deferred exit action -/

/-- The two history lines shared by `on_command` and `on_sql`:
`history.push_back(text)` followed by `pop_front` when over capacity. -/
def historyPush (history : List String) (text : String) : List String :=
  let h := history ++ [text]
  if h.length > HISTORY_LENGTH then h.tail else h

/-- The deferred cleanup registered by `defer!` in `on_command` and `on_sql`:
append the submitted text to the history ring (evicting the oldest entry over
capacity), write a blank line and render the prompt, which re-enables input.
Being a scope guard it runs on every exit path of the handler body, early
returns included. -/
def exitAction (text : String) (s : Shell) : Shell :=
  (({ s with history := historyPush s.history text }).writeln "").prompt

/-! ### Meta commands -/

/-- The `write_feature` closure of `Shell::configure_command`. -/
def write_feature (buffer : String) (name description : String) (value : Bool) : String :=
  buffer
    ++ (if value then vt100FG_BLACK else vt100FG_BRIGHT_YELLOW)
    ++ (if value then vt100BG_BRIGHT_YELLOW else vt100BG_BLACK)
    ++ (if value then " ✓ " else " ✗ ")
    ++ vt100MODES_OFF ++ " "
    ++ padRight name 24 ++ " - " ++ description ++ vt100CRLF

/-- shell.rs `Shell::configure_command` (the `.config` report).  The platform
probe result is a parameter; with no database attached the function returns
without writing anything; `get_feature_flags().await.unwrap()` panics when the
engine call fails. -/
def configure_command (platform : PlatformFeatures) (s : Shell) : Res Shell :=
  let buffer := vt100CRLF ++ vt100MODE_BOLD ++ "Platform Compatibility:" ++ vt100MODES_OFF ++ vt100CRLF
  let buffer := write_feature buffer "WebGL 2 Renderer"
    "https://chromestatus.com/feature/6694359164518400" platform.wasm_exceptions
  let buffer := write_feature buffer "WebAssembly Exceptions"
    "https://chromestatus.com/feature/4756734233018368" platform.wasm_exceptions
  let buffer := write_feature buffer "WebAssembly SIMD"
    "https://chromestatus.com/feature/6533147810332672" platform.wasm_simd
  let buffer := write_feature buffer "WebAssembly Bulk Memory"
    "https://chromestatus.com/feature/4590306448113664" platform.wasm_bulk_memory
  let buffer := write_feature buffer "WebAssembly Threads"
    "https://chromestatus.com/feature/5724132452859904" platform.wasm_threads
  let buffer := write_feature buffer "Cross Origin Isolated"
    "Cross Origin policies allow for multi-threading" platform.cross_origin_isolated
  match s.db with
  | none => Res.ok s
  | some db =>
    match db.get_feature_flags with
    | Except.error _ => Res.panicked
    | Except.ok db_features =>
      let buffer := buffer ++ vt100CRLF ++ vt100MODE_BOLD ++ "DuckDB Bundle Features:" ++ vt100MODES_OFF ++ vt100CRLF
      let buffer := write_feature buffer "WebAssembly Exceptions"
        "Module uses native exceptions" (decide ((db_features &&& 1) ≠ 0))
      let buffer := write_feature buffer "WebAssembly SIMD"
        "Module uses SIMD instructions" (decide ((db_features &&& 4) ≠ 0))
      let buffer := write_feature buffer "WebAssembly Bulk Memory"
        "Module uses bulk memory operations" (decide ((db_features &&& 8) ≠ 0))
      let buffer := write_feature buffer "WebAssembly Threads"
        "Module uses multiple web-workers" (decide ((db_features &&& 2) ≠ 0))
      Res.ok (s.writeln buffer)

/-- shell.rs `Shell::fstats_command`.  With no database attached it returns
silently; the `unwrap()` calls on the engine results panic on failure. -/
def fstats_command (args : String) (s : Shell) : Res Shell :=
  match s.db with
  | none => Res.ok s
  | some db =>
    let subcmd := (splitAtSpace args).1
    let options := strTrim (splitAtSpace args).2
    if subcmd = "enable" then
      match db.enable_file_statistics options true with
      | Except.ok _ => Res.ok (s.writeln ("Enabled file statistics for: " ++ options))
      | Except.error _ => Res.panicked
    else if subcmd = "disable" then
      match db.enable_file_statistics options false with
      | Except.ok _ => Res.ok (s.writeln ("Disabled file statistics for: " ++ options))
      | Except.error _ => Res.panicked
    else if subcmd = "reset" then
      Res.ok (s.writeln ("Resetted file statistics for: " ++ options))
    else if subcmd = "reads" then
      match db.export_file_statistics options with
      | Except.ok stats => Res.ok (s.writeln (stats.print_read_stats s.terminal_width))
      | Except.error _ => Res.panicked
    else
      Res.ok ((s.writeln ("Resetted file statistics for: " ++ options)).writeln
        "Usage: .fstats [enable/disable/reset/reads/paging] <file>")

/-- The `.timer` arm of `Shell::on_command`: note the source tests the
argument with `ends_with`, not equality. -/
def timer_command (args : String) (s : Shell) : Shell :=
  if strEndsWith args "on" then
    ({ s with settings := { s.settings with timer := true } }).writeln "Timer enabled"
  else if strEndsWith args "off" then
    ({ s with settings := { s.settings with timer := false } }).writeln "Timer disabled"
  else
    s.writeln "Usage: .timer [on/off]"

/-- The `.files` arm of `Shell::on_command`: with a runtime attached it opens
the host file explorer (no terminal effect), otherwise it reports the missing
runtime. -/
def files_command (s : Shell) : Shell :=
  match s.runtime with
  | some _ => s
  | none => s.writeln "Shell runtime not set"

/-- shell.rs `Shell::on_command`: blank line, dispatch on the first
whitespace-delimited token of the trimmed text, and the deferred exit action
on every non-panicking path (the scope guard does not survive the wasm
abort). -/
def on_command (platform : PlatformFeatures) (text : String) (s : Shell) : Res Shell :=
  let trimmed := strTrim text
  let s := s.writeln ""
  let cmd := (splitAtSpace trimmed).1
  let args := strTrim (splitAtSpace trimmed).2
  let body : Res Shell :=
    if cmd = ".clear" then Res.ok s.clear
    else if cmd = ".help" then Res.ok (s.writeln "Not implemented yet")
    else if cmd = ".quit" then Res.ok (s.writeln "Not implemented yet")
    else if cmd = ".config" then configure_command platform s
    else if cmd = ".timer" then Res.ok (timer_command args s)
    else if cmd = ".fstats" then fstats_command args s
    else if cmd = ".files" then Res.ok (files_command s)
    else Res.ok (s.writeln ("Unknown command: " ++ cmd))
  match body with
  | Res.ok s2 => Res.ok (exitAction text s2)
  | Res.panicked => Res.panicked

/-! ### Query path -/

/-- External pieces of the query path: the result formatter
(`pretty_format_batches`, pure, may fail and is defaulted to the empty
string) and the rendered elapsed-time text (`pretty_elapsed` of the wall
clock delta). -/
structure SqlEnv where
  fmt : RecordBatches → Nat → Option String
  elapsedText : String

/-- shell.rs `Shell::on_sql`: blank line; without a connection report the
error; otherwise run the query and render either the formatted batches (plus
the elapsed line when the timer setting is on) or the engine error message
with newlines translated, prefixed "Error: ".  The deferred exit action wraps
every path. -/
def on_sql (env : SqlEnv) (text : String) (s : Shell) : Shell :=
  let body : Shell :=
    let s := s.writeln ""
    match s.db_conn with
    | none => s.writeln "Error: connection not set"
    | some conn =>
      match conn.run_query text with
      | Except.error e =>
        let msg := replaceNewlines e
        s.writeln ("Error: " ++ msg ++ vt100CRLF)
      | Except.ok batches =>
        let pretty_table := (env.fmt batches s.terminal_width).getD ""
        let s := s.writeln pretty_table
        if s.settings.timer then
          s.writeln (vt100MODE_BOLD ++ "Elapsed:" ++ vt100MODES_OFF ++ " " ++ env.elapsedText)
        else s
  exitAction text body

/-! ### Background highlighting -/

/-- The data captured synchronously by `Shell::highlight_input` before the
suspension point: the collected buffer text and the input clock value. -/
structure HighlightReq where
  input : String
  clock : Nat
  deriving DecidableEq

/-- The synchronous part of `Shell::highlight_input`: collect text and clock;
command-prefixed input skips highlighting entirely; then
`Shell::with(|s| s.db.clone()).unwrap()` panics when no engine is attached;
otherwise a background request carrying the captured data is spawned. -/
def highlight_input (s : Shell) : Res (Option HighlightReq) :=
  let input := s.input.collect
  let clock := s.input_clock
  if strStartsWithDot input then Res.ok none
  else
    match s.db with
    | none => Res.panicked
    | some _ => Res.ok (some ⟨input, clock⟩)

/-- The resumption of a background highlight request once the tokenize result
is available: a failed tokenize is silently discarded; a stale generation
(current clock differs from the captured one) is discarded; otherwise the
tokens are applied to the buffer markup and the buffer is flushed. -/
def highlight_resume (req : HighlightReq) (tokens : Except Unit (List Nat)) (s : Shell) : Shell :=
  match tokens with
  | Except.error _ => s
  | Except.ok toks =>
    if s.input_clock ≠ req.clock then s
    else ({ s with input := s.input.highlight_sql toks }).flush

/-! ### Key routing -/

/-- Work scheduled by the key router via `spawn_local`. -/
inductive Spawn where
  | command (text : String)
  | sql (text : String)
  | highlight (req : HighlightReq)
  deriving DecidableEq

/-- Result of `Shell::on_key`: the updated state, the scheduled work if any,
and whether the synchronous part panicked (the highlight unwrap). -/
structure KeyOut where
  state : Shell
  spawned : Option Spawn
  panicked : Bool

/-- shell.rs `Shell::on_key`.  Events while input is disabled and events whose
type is not "keydown" are dropped.  Enter first bumps the input clock and
collects the buffer: command-prefixed text blocks input and schedules
`on_command`, text ending in a semicolon blocks input and schedules `on_sql`,
anything else is a newline edit.  Backspace and arrows bump the clock and
edit.  Any other key bumps the clock, edits, and triggers the highlight
scheduler.  The clock is a u64 in the source, so `input_clock += 1` is
modelled as addition modulo 2 ^ 64 (the wrapping semantics of the deployed
release build).  The buffer editing algorithm `consume` is an external
parameter. -/
def on_key (consume : PromptBuffer → KeyEvent → PromptBuffer) (s : Shell) (ev : KeyEvent) : KeyOut :=
  if !s.input_enabled then ⟨s, none, false⟩
  else if ev.etype ≠ "keydown" then ⟨s, none, false⟩
  else
    match ev.key with
    | Key.Enter =>
      let s := { s with input_clock := (s.input_clock + 1) % 2 ^ 64 }
      let input := s.input.collect
      if strStartsWithDot input then
        ⟨s.block_input, some (Spawn.command input), false⟩
      else if strEndsWith (strTrimEnd input) ";" then
        ⟨s.block_input, some (Spawn.sql input), false⟩
      else
        ⟨({ s with input := consume s.input ev }).flush, none, false⟩
    | Key.Backspace | Key.ArrowDown | Key.ArrowLeft | Key.ArrowRight | Key.ArrowUp =>
      ⟨({ s with input_clock := (s.input_clock + 1) % 2 ^ 64, input := consume s.input ev }).flush,
        none, false⟩
    | _ =>
      let s2 :=
        ({ s with input_clock := (s.input_clock + 1) % 2 ^ 64, input := consume s.input ev }).flush
      match highlight_input s2 with
      | Res.ok r => ⟨s2, r.map Spawn.highlight, false⟩
      | Res.panicked => ⟨s2, none, true⟩

/-! ### Session sequences -/

/-- One scheduler slice touching the session state: a key event or the
resumption of a background highlight request. -/
inductive SessionAction where
  | key (ev : KeyEvent)
  | highlightDone (req : HighlightReq) (tokens : Except Unit (List Nat))

/-- Apply one session action to the state. -/
def sessionStep (consume : PromptBuffer → KeyEvent → PromptBuffer) (s : Shell) (a : SessionAction) : Shell :=
  match a with
  | SessionAction.key ev => (on_key consume s ev).state
  | SessionAction.highlightDone req tokens => highlight_resume req tokens s

/-- Run a sequence of session actions. -/
def runSession (consume : PromptBuffer → KeyEvent → PromptBuffer) (s : Shell) (actions : List SessionAction) : Shell :=
  actions.foldl (sessionStep consume) s

/-- The history ring after a sequence of completed submissions: each
submission runs the deferred exit action, whose history effect is
`historyPush`. -/
def submitAll (texts : List String) : List String :=
  texts.foldl historyPush []

/-! ### Concrete instances for witnesses and counterexamples -/

/-- A platform probe result with every capability off. -/
def pf0 : PlatformFeatures := ⟨false, false, false, false, false⟩

/-- A trivial buffer editing function. -/
def consume0 : PromptBuffer → KeyEvent → PromptBuffer := fun b _ => b

/-- An engine whose async calls all fail. -/
def dbFailing : AsyncDuckDB where
  tokenize := fun _ => Except.error ()
  get_version := Except.error ()
  get_feature_flags := Except.error ()
  enable_file_statistics := fun _ _ => Except.error ()
  export_file_statistics := fun _ => Except.error ()

/-- A connection failing with the message from the design document example. -/
def connFailing : AsyncDuckDBConnection where
  run_query := fun _ => Except.error "syntax error\nnear token"

/-- A query environment with a formatter that always fails. -/
def env0 : SqlEnv where
  fmt := fun _ _ => none
  elapsedText := ""

/-- A session whose input clock has advanced to 5. -/
def shellStale : Shell := { Shell.default with input_clock := 5 }

/-- A session with input enabled, SQL text in the buffer and no engine
attached. -/
def shellNoDb : Shell :=
  { Shell.default with input := ⟨"select 1", none⟩, input_enabled := true }

/-- A session attached to the failing engine. -/
def shellBadDb : Shell := { Shell.default with db := some dbFailing }

/-- A session attached to the failing connection. -/
def shellConnFailing : Shell := { Shell.default with db_conn := some connFailing }

/-- A keyup event (not the "keydown" phase). -/
def evNonKeydown : KeyEvent := ⟨"keyup", Key.Enter⟩

/-- An Enter keydown event. -/
def evEnter : KeyEvent := ⟨"keydown", Key.Enter⟩

/-- A session with input enabled whose clock has reached the largest u64
value. -/
def shellMaxClock : Shell :=
  { Shell.default with input_enabled := true, input_clock := 2 ^ 64 - 1 }

/-! ### Theorems -/

/-- C1: a background highlight completion that captured generation g is
discarded whenever the current input generation differs from g: the session
state is returned unchanged, so the buffer highlight markup is untouched and
no flush reaches the terminal; only a request whose captured generation
matches the current one can apply its tokens. -/
theorem claim_C1_stale_highlight_discarded (req : HighlightReq)
    (tokens : Except Unit (List Nat)) (s : Shell)
    (h : s.input_clock ≠ req.clock) :
    highlight_resume req tokens s = s := by
  cases tokens with
  | error e => rfl
  | ok toks => simp [highlight_resume, h]

/-- C1 witness: a request captured at generation 3 resuming at generation 5
is discarded. -/
theorem claim_C1_witness :
    shellStale.input_clock ≠ (3 : Nat) ∧
      highlight_resume ⟨"x", 3⟩ (Except.ok [1, 2]) shellStale = shellStale :=
  ⟨by decide,
    claim_C1_stale_highlight_discarded ⟨"x", 3⟩ (Except.ok [1, 2]) shellStale (by decide)⟩

/-- C2: a key event delivered while input is disabled, or whose type
discriminator is not "keydown", is a complete no-op: the state (buffer,
generation, terminal) is unchanged, nothing is scheduled, nothing panics. -/
theorem claim_C2_disabled_events_noop (consume : PromptBuffer → KeyEvent → PromptBuffer)
    (s : Shell) (ev : KeyEvent)
    (h : s.input_enabled = false ∨ ev.etype ≠ "keydown") :
    on_key consume s ev = ⟨s, none, false⟩ := by
  rcases h with h | h
  · simp [on_key, h]
  · cases hb : s.input_enabled
    · simp [on_key, hb]
    · simp [on_key, hb, h]

/-- C2 witness: a keyup event on the initial (disabled) session is dropped. -/
theorem claim_C2_witness :
    Shell.default.input_enabled = false ∧
      on_key consume0 Shell.default evNonKeydown = ⟨Shell.default, none, false⟩ :=
  ⟨rfl, claim_C2_disabled_events_noop consume0 Shell.default evNonKeydown (Or.inl rfl)⟩

/-- C4 counterexample: submitting ".clear" from an empty history appends
".clear" to the history ring, because the deferred exit action runs on the
early return as well; the claim that no entry is appended for ".clear" is
false on the code. -/
theorem claim_C4_counterexample :
    ((on_command pf0 ".clear" Shell.default).getD Shell.default).history = [".clear"] := rfl

/-- C4 amended: the ".clear" command clears the terminal and redraws the
prompt, and then, like every other command, the shared deferred exit action
still runs (the scope guard executes on the early return too): the submitted
text is appended to the history ring and the blank line plus prompt re-render
of the exit action occur. -/
theorem claim_C4_clear_runs_exit_action (platform : PlatformFeatures) (s : Shell) :
    on_command platform ".clear" s = Res.ok (exitAction ".clear" ((s.writeln "").clear)) := rfl

/-- C6 counterexample: a highlight trigger with no engine attached and
non-command input does not return silently; the unwrap of the missing engine
handle panics. -/
theorem claim_C6_counterexample : highlight_input shellNoDb = Res.panicked := rfl

/-- C6 amended: a failing tokenize call is silently dropped — the session
state is returned unchanged, so nothing is written and no flush occurs — but
when no engine is attached and the input is not command-prefixed the
highlight request panics on the missing handle instead of being silently
dropped. -/
theorem claim_C6_highlight_errors (req : HighlightReq) (s s2 : Shell)
    (hdb : s2.db = none) (hcmd : strStartsWithDot s2.input.collect = false) :
    highlight_resume req (Except.error ()) s = s ∧ highlight_input s2 = Res.panicked := by
  refine ⟨rfl, ?_⟩
  simp only [PromptBuffer.collect] at hcmd
  simp [highlight_input, PromptBuffer.collect, hcmd, hdb]

/-- C6 witness: a failed tokenize on the fresh session is dropped, and the
no-engine session panics. -/
theorem claim_C6_witness :
    highlight_resume ⟨"sel", 2⟩ (Except.error ()) Shell.default = Shell.default ∧
      highlight_input shellNoDb = Res.panicked :=
  claim_C6_highlight_errors ⟨"sel", 2⟩ Shell.default shellNoDb rfl rfl

/-- C7 counterexample: the argument "salmon" is neither "on" nor "off", yet
".timer salmon" sets the timer to true (the source only checks the argument
suffix), refuting the claim that any argument other than "on" leaves the
setting unchanged. -/
theorem claim_C7_counterexample :
    ((on_command pf0 ".timer salmon" Shell.default).getD Shell.default).settings.timer = true ∧
      Shell.default.settings.timer = false :=
  ⟨rfl, rfl⟩

/-- C7 amended: the .timer argument is matched by suffix, not by equality:
any argument ending with "on" sets the timer to true and emits
"Timer enabled"; otherwise any argument ending with "off" sets it to false
and emits "Timer disabled"; any other argument (such as "bogus") leaves the
setting unchanged and emits the usage string. -/
theorem claim_C7_timer_suffix (args : String) (s : Shell) :
    (timer_command args s).settings.timer =
        (if strEndsWith args "on" then true
         else if strEndsWith args "off" then false
         else s.settings.timer) ∧
      (timer_command args s).terminal =
        s.terminal ++ [TermOp.write
          ((if strEndsWith args "on" then "Timer enabled"
            else if strEndsWith args "off" then "Timer disabled"
            else "Usage: .timer [on/off]") ++ vt100CRLF)] := by
  by_cases h1 : strEndsWith args "on" = true
  · simp [timer_command, h1, Shell.writeln, Shell.write]
  · by_cases h2 : strEndsWith args "off" = true
    · simp [timer_command, h1, h2, Shell.writeln, Shell.write]
    · simp [timer_command, h1, h2, Shell.writeln, Shell.write]

/-- C10 counterexample: the freshly constructed session has input disabled,
so the Key Router cannot submit work at the start of the session. -/
theorem claim_C10_counterexample : Shell.default.input_enabled = false := rfl

/-- C10 amended: the constructed initial state has inputEnabled false; the
prompt render is what establishes inputEnabled true, so only once the first
prompt has been drawn (after engine attachment completes) does the Idle state
let the Key Router submit work. -/
theorem claim_C10_initial_state :
    Shell.default.input_enabled = false ∧ ∀ s : Shell, (Shell.prompt s).input_enabled = true :=
  ⟨rfl, fun _ => rfl⟩

/-- Helper: one history push on a ring within capacity drops the overflow
from the front. -/
theorem history_push_drop (h : List String) (t : String) (hle : h.length ≤ HISTORY_LENGTH) :
    historyPush h t = (h ++ [t]).drop (h.length + 1 - HISTORY_LENGTH) := by
  have hlen : (h ++ [t]).length = h.length + 1 := by simp
  simp only [historyPush]
  by_cases hc : (h ++ [t]).length > HISTORY_LENGTH
  · rw [if_pos hc, show h.length + 1 - HISTORY_LENGTH = 1 from by omega, List.drop_one]
  · rw [if_neg hc, show h.length + 1 - HISTORY_LENGTH = 0 from by omega, List.drop_zero]

/-- Helper: one history push preserves the capacity bound. -/
theorem history_push_len (h : List String) (t : String) (hle : h.length ≤ HISTORY_LENGTH) :
    (historyPush h t).length ≤ HISTORY_LENGTH := by
  rw [history_push_drop h t hle, List.length_drop]
  have hlen : (h ++ [t]).length = h.length + 1 := by simp
  omega

/-- Helper: folding history pushes keeps exactly the most recent
HISTORY_LENGTH entries in order. -/
theorem history_fold_drop (ts : List String) : ∀ acc : List String,
    acc.length ≤ HISTORY_LENGTH →
    List.foldl historyPush acc ts = (acc ++ ts).drop (acc.length + ts.length - HISTORY_LENGTH) := by
  induction ts with
  | nil =>
    intro acc hacc
    simp only [List.foldl_nil, List.append_nil, List.length_nil, Nat.add_zero]
    rw [show acc.length - HISTORY_LENGTH = 0 from by omega, List.drop_zero]
  | cons t rest ih =>
    intro acc hacc
    rw [List.foldl_cons, ih (historyPush acc t) (history_push_len acc t hacc),
      history_push_drop acc t hacc]
    rw [← List.drop_append_of_le_length
      (show acc.length + 1 - HISTORY_LENGTH ≤ (acc ++ [t]).length from by simp)]
    rw [List.drop_drop]
    have harg : acc.length + 1 - HISTORY_LENGTH +
        ((List.drop (acc.length + 1 - HISTORY_LENGTH) (acc ++ [t])).length + rest.length - HISTORY_LENGTH) =
        acc.length + (t :: rest).length - HISTORY_LENGTH := by
      simp only [List.length_drop, List.length_append, List.length_cons, List.length_nil]
      omega
    rw [harg]
    have hlist : acc ++ [t] ++ rest = acc ++ t :: rest := by simp
    rw [hlist]

/-- C3: after any sequence of completed submissions the history ring holds
exactly min N HISTORY_LENGTH entries, and they are the most recent
submissions in insertion order (the oldest evicted first); in particular the
length never exceeds HISTORY_LENGTH and after 1001 submissions the first is
absent and the last 1000 are present in order. -/
theorem claim_C3_history_ring_bound (ts : List String) :
    (submitAll ts).length = min ts.length HISTORY_LENGTH ∧
      submitAll ts = ts.drop (ts.length - HISTORY_LENGTH) := by
  have h := history_fold_drop ts [] (by simp)
  simp only [List.nil_append, List.length_nil, Nat.zero_add] at h
  refine ⟨?_, ?_⟩
  · simp only [submitAll]
    rw [h, List.length_drop]
    omega
  · simp only [submitAll]
    exact h

/-- C9 counterexample: a keydown Enter event on a session whose u64 clock
holds the largest value 2 ^ 64 - 1 wraps the counter back to 0, a decrease;
the unconditional monotonicity claim is false under the wrapping arithmetic
of the u64 source field. -/
theorem claim_C9_counterexample :
    shellMaxClock.input_clock = 2 ^ 64 - 1 ∧
      (on_key consume0 shellMaxClock evEnter).state.input_clock = 0 :=
  ⟨rfl, rfl⟩

/-- Helper: away from the u64 bound, every branch of the key handler leaves
the input clock unchanged or increments it by exactly one. -/
theorem on_key_clock_bounds (consume : PromptBuffer → KeyEvent → PromptBuffer)
    (s : Shell) (ev : KeyEvent) (h : s.input_clock + 1 < 2 ^ 64) :
    s.input_clock ≤ (on_key consume s ev).state.input_clock ∧
      (on_key consume s ev).state.input_clock ≤ s.input_clock + 1 := by
  have hm : (s.input_clock + 1) % 2 ^ 64 = s.input_clock + 1 := Nat.mod_eq_of_lt h
  unfold on_key
  dsimp only
  repeat' split
  all_goals dsimp only [Shell.block_input, Shell.flush]
  all_goals omega

/-- Helper: away from the u64 bound, one session action never decreases the
input clock and raises it by at most one. -/
theorem session_step_clock (consume : PromptBuffer → KeyEvent → PromptBuffer)
    (s : Shell) (a : SessionAction) (h : s.input_clock + 1 < 2 ^ 64) :
    s.input_clock ≤ (sessionStep consume s a).input_clock ∧
      (sessionStep consume s a).input_clock ≤ s.input_clock + 1 := by
  cases a with
  | key ev => exact on_key_clock_bounds consume s ev h
  | highlightDone req tokens =>
    cases tokens with
    | error e => exact ⟨Nat.le_refl _, Nat.le_succ _⟩
    | ok toks =>
      simp only [sessionStep, highlight_resume]
      split
      · exact ⟨Nat.le_refl _, Nat.le_succ _⟩
      · dsimp only [Shell.flush]
        exact ⟨Nat.le_refl _, Nat.le_succ _⟩

/-- C9 amended: the input generation counter is a u64 whose increments wrap
modulo 2 ^ 64; across every sequence of key events and interleaved
background highlight completions that keeps the counter below the wrap bound
(clock plus number of events under 2 ^ 64 — never exceeded by a real session
at one increment per keystroke) the value after each event is greater than
or equal to the value before and the counter is never reset; only the wrap
at exactly 2 ^ 64 - 1 can lower it. -/
theorem claim_C9_clock_monotone (consume : PromptBuffer → KeyEvent → PromptBuffer)
    (s : Shell) (actions : List SessionAction)
    (h : s.input_clock + actions.length < 2 ^ 64) :
    s.input_clock ≤ (runSession consume s actions).input_clock := by
  induction actions generalizing s with
  | nil => exact Nat.le_refl _
  | cons a rest ih =>
    have hlen : (a :: rest).length = rest.length + 1 := List.length_cons a rest
    have h1 : s.input_clock + 1 < 2 ^ 64 := by omega
    obtain ⟨hs1, hs2⟩ := session_step_clock consume s a h1
    have h2 : (sessionStep consume s a).input_clock + rest.length < 2 ^ 64 := by omega
    exact Nat.le_trans hs1 (ih (sessionStep consume s a) h2)

/-- C9 witness: two Enter keydown events on an enabled session with SQL text
in the buffer satisfy the length bound and keep the clock non-decreasing. -/
theorem claim_C9_witness :
    shellNoDb.input_clock +
        ([SessionAction.key evEnter, SessionAction.key evEnter] : List SessionAction).length < 2 ^ 64 ∧
      shellNoDb.input_clock ≤
        (runSession consume0 shellNoDb
          [SessionAction.key evEnter, SessionAction.key evEnter]).input_clock :=
  ⟨by decide,
    claim_C9_clock_monotone consume0 shellNoDb
      [SessionAction.key evEnter, SessionAction.key evEnter] (by decide)⟩

/-- C5 counterexample: running .config with an attached engine whose
feature-flag query fails does not complete by writing a message to the
terminal; the unwrap panics, so the error escapes the dispatch boundary. -/
theorem claim_C5_counterexample : configure_command pf0 shellBadDb = Res.panicked := rfl

/-- C5 amended: query failures and a missing connection are caught at the
dispatch boundary and converted to terminal output with input re-enabled
afterwards, but an engine whose feature-flag query fails makes .config panic
and an engine whose file-statistics call fails makes .fstats panic (the
results are unwrapped), instead of completing with a terminal message. -/
theorem claim_C5_dispatch_errors (env : SqlEnv) (text msg : String) (s s2 : Shell)
    (conn : AsyncDuckDBConnection) (hnoconn : s.db_conn = none)
    (hconn : s2.db_conn = some conn) (hq : conn.run_query text = Except.error msg) :
    (TermOp.write ("Error: connection not set" ++ vt100CRLF) ∈ (on_sql env text s).terminal ∧
        (on_sql env text s).input_enabled = true) ∧
      (TermOp.write ("Error: " ++ replaceNewlines msg ++ vt100CRLF ++ vt100CRLF) ∈
          (on_sql env text s2).terminal ∧
        (on_sql env text s2).input_enabled = true) ∧
      configure_command pf0 shellBadDb = Res.panicked ∧
      fstats_command "enable x" shellBadDb = Res.panicked := by
  refine ⟨⟨?_, ?_⟩, ⟨?_, ?_⟩, rfl, rfl⟩ <;>
    simp [on_sql, exitAction, Shell.writeln, Shell.write, Shell.prompt, hnoconn, hconn, hq,
      String.append_assoc]

/-- C5 witness: a query submitted with no connection set and a query failing
on a live connection each report the error on the terminal with input
re-enabled, while the failing-engine .config and .fstats paths panic. -/
theorem claim_C5_witness :
    (TermOp.write ("Error: connection not set" ++ vt100CRLF) ∈
          (on_sql env0 "select 1;" Shell.default).terminal ∧
        (on_sql env0 "select 1;" Shell.default).input_enabled = true) ∧
      (TermOp.write
            ("Error: " ++ replaceNewlines "syntax error\nnear token" ++ vt100CRLF ++ vt100CRLF) ∈
          (on_sql env0 "select 1;" shellConnFailing).terminal ∧
        (on_sql env0 "select 1;" shellConnFailing).input_enabled = true) ∧
      configure_command pf0 shellBadDb = Res.panicked ∧
      fstats_command "enable x" shellBadDb = Res.panicked :=
  claim_C5_dispatch_errors env0 "select 1;" "syntax error\nnear token" Shell.default
    shellConnFailing connFailing rfl rfl rfl

/-- C8: when a query fails with engine message m, the terminal receives the
line "Error: " followed by m with every embedded newline replaced by CRLF
(the message otherwise verbatim), and afterwards the exit action re-enables
input. -/
theorem claim_C8_query_failure_output (env : SqlEnv) (text msg : String) (s : Shell)
    (conn : AsyncDuckDBConnection) (hconn : s.db_conn = some conn)
    (hq : conn.run_query text = Except.error msg) :
    TermOp.write ("Error: " ++ replaceNewlines msg ++ vt100CRLF ++ vt100CRLF) ∈
        (on_sql env text s).terminal ∧
      (on_sql env text s).input_enabled = true := by
  refine ⟨?_, ?_⟩ <;>
    simp [on_sql, exitAction, Shell.writeln, Shell.write, Shell.prompt, hconn, hq,
      String.append_assoc]

/-- C8 witness: the failing message of the design document example is
rendered with the embedded newline translated, and input ends re-enabled. -/
theorem claim_C8_witness :
    replaceNewlines "syntax error\nnear token" = "syntax error\r\nnear token" ∧
      TermOp.write ("Error: " ++ replaceNewlines "syntax error\nnear token" ++ vt100CRLF ++ vt100CRLF) ∈
        (on_sql env0 "select 1" shellConnFailing).terminal ∧
      (on_sql env0 "select 1" shellConnFailing).input_enabled = true :=
  ⟨by decide,
    (claim_C8_query_failure_output env0 "select 1" "syntax error\nnear token"
      shellConnFailing connFailing rfl rfl).1,
    (claim_C8_query_failure_output env0 "select 1" "syntax error\nnear token"
      shellConnFailing connFailing rfl rfl).2⟩
